import Mathlib

/-!
Verification of the delivery-status classification, multipart-header
decoding and event-kind bitmask logic of the `sms-types` crate.

Bytes (`u8`) are embedded as `Nat`; claims quantify over `b < 256`.
Rust `match` expressions become Lean `match`/`if` chains in source order,
fallible conversions become `Except`.
-/

set_option maxRecDepth 10000

/-- Delivery report status (TP-Status), mirroring the Rust enum
`SmsDeliveryReportStatus` in `sms.rs`, including the `Unknown(u8)`
fallback variant carrying the raw byte. -/
inductive SmsDeliveryReportStatus : Type where
  | ReceivedBySme
  | ForwardedButUnconfirmed
  | ReplacedBySc
  | Congestion
  | SmeBusy
  | NoResponseFromSme
  | ServiceRejected
  | QualityOfServiceNotAvailable
  | ErrorInSme
  | RemoteProcedureError
  | IncompatibleDestination
  | ConnectionRejectedBySme
  | NotObtainable
  | QualityOfServiceNotAvailablePermanent
  | NoInterworkingAvailable
  | SmValidityPeriodExpired
  | SmDeletedByOriginatingSme
  | SmDeletedByScAdministration
  | SmDoesNotExist
  | CongestionNoRetry
  | SmeBusyNoRetry
  | NoResponseFromSmeNoRetry
  | ServiceRejectedNoRetry
  | QualityOfServiceNotAvailableNoRetry
  | ErrorInSmeNoRetry
  | Unknown (val : Nat)
deriving DecidableEq

/-- Generalised delivery status group, mirroring the Rust enum
`SmsDeliveryReportStatusGroup`. -/
inductive SmsDeliveryReportStatusGroup : Type where
  | Sent
  | Received
  | TemporaryFailure
  | PermanentFailure
deriving DecidableEq

/-- `impl From<u8> for SmsDeliveryReportStatus` (`sms.rs` lines 200-251):
named arms for the listed code points, wildcard arm producing
`Unknown(value)`. -/
def SmsDeliveryReportStatus.fromByte (value : Nat) : SmsDeliveryReportStatus :=
  match value with
  | 0x00 => .ReceivedBySme
  | 0x01 => .ForwardedButUnconfirmed
  | 0x02 => .ReplacedBySc
  | 0x20 => .Congestion
  | 0x21 => .SmeBusy
  | 0x22 => .NoResponseFromSme
  | 0x23 => .ServiceRejected
  | 0x24 => .QualityOfServiceNotAvailable
  | 0x25 => .ErrorInSme
  | 0x40 => .RemoteProcedureError
  | 0x41 => .IncompatibleDestination
  | 0x42 => .ConnectionRejectedBySme
  | 0x43 => .NotObtainable
  | 0x44 => .QualityOfServiceNotAvailablePermanent
  | 0x45 => .NoInterworkingAvailable
  | 0x46 => .SmValidityPeriodExpired
  | 0x47 => .SmDeletedByOriginatingSme
  | 0x48 => .SmDeletedByScAdministration
  | 0x49 => .SmDoesNotExist
  | 0x60 => .CongestionNoRetry
  | 0x61 => .SmeBusyNoRetry
  | 0x62 => .NoResponseFromSmeNoRetry
  | 0x63 => .ServiceRejectedNoRetry
  | 0x64 => .QualityOfServiceNotAvailableNoRetry
  | 0x65 => .ErrorInSmeNoRetry
  | _ => .Unknown value

/-- `SmsDeliveryReportStatus::is_successful` (`sms.rs`). -/
def SmsDeliveryReportStatus.is_successful : SmsDeliveryReportStatus → Bool
  | .ReceivedBySme | .ForwardedButUnconfirmed | .ReplacedBySc => true
  | _ => false

/-- `SmsDeliveryReportStatus::is_temporary_retrying` (`sms.rs`): named
temporary-retry variants, or `Unknown(val)` with `0x20 <= val <= 0x3F`. -/
def SmsDeliveryReportStatus.is_temporary_retrying : SmsDeliveryReportStatus → Bool
  | .Congestion | .SmeBusy | .NoResponseFromSme | .ServiceRejected
  | .QualityOfServiceNotAvailable | .ErrorInSme => true
  | .Unknown val => 0x20 ≤ val && val ≤ 0x3F
  | _ => false

/-- `SmsDeliveryReportStatus::is_permanent_error` (`sms.rs`): named
permanent-failure variants, or `Unknown(val)` with `0x40 <= val <= 0x5F`. -/
def SmsDeliveryReportStatus.is_permanent_error : SmsDeliveryReportStatus → Bool
  | .RemoteProcedureError | .IncompatibleDestination | .ConnectionRejectedBySme
  | .NotObtainable | .QualityOfServiceNotAvailablePermanent
  | .NoInterworkingAvailable | .SmValidityPeriodExpired
  | .SmDeletedByOriginatingSme | .SmDeletedByScAdministration
  | .SmDoesNotExist => true
  | .Unknown val => 0x40 ≤ val && val ≤ 0x5F
  | _ => false

/-- `SmsDeliveryReportStatus::is_temporary_no_retry` (`sms.rs`): named
no-retry variants, or `Unknown(val)` with `0x60 <= val <= 0x7F`. -/
def SmsDeliveryReportStatus.is_temporary_no_retry : SmsDeliveryReportStatus → Bool
  | .CongestionNoRetry | .SmeBusyNoRetry | .NoResponseFromSmeNoRetry
  | .ServiceRejectedNoRetry | .QualityOfServiceNotAvailableNoRetry
  | .ErrorInSmeNoRetry => true
  | .Unknown val => 0x60 ≤ val && val ≤ 0x7F
  | _ => false

/-- `SmsDeliveryReportStatus::to_status_group` (`sms.rs` lines 335-362):
predicate cascade, then range fallback for `Unknown`, then the
conservative `PermanentFailure` default. -/
def SmsDeliveryReportStatus.to_status_group
    (s : SmsDeliveryReportStatus) : SmsDeliveryReportStatusGroup :=
  if s.is_successful then .Received
  else if s.is_temporary_retrying then .Sent
  else if s.is_permanent_error || s.is_temporary_no_retry then
    if s.is_permanent_error then .PermanentFailure else .TemporaryFailure
  else
    match s with
    | .Unknown val =>
      if 0x20 ≤ val && val ≤ 0x3F then .Sent
      else if 0x40 ≤ val && val ≤ 0x5F then .PermanentFailure
      else if 0x60 ≤ val && val ≤ 0x7F then .TemporaryFailure
      else .PermanentFailure
    | _ => .PermanentFailure

/-- The composite pipeline: classify a raw byte, then reduce to a group. -/
def groupOfByte (b : Nat) : SmsDeliveryReportStatusGroup :=
  (SmsDeliveryReportStatus.fromByte b).to_status_group

/-- The byte values carrying a named (non-wildcard) arm in
`From<u8> for SmsDeliveryReportStatus`. -/
def namedStatusBytes : List Nat :=
  [0x00, 0x01, 0x02,
   0x20, 0x21, 0x22, 0x23, 0x24, 0x25,
   0x40, 0x41, 0x42, 0x43, 0x44, 0x45, 0x46, 0x47, 0x48, 0x49,
   0x60, 0x61, 0x62, 0x63, 0x64, 0x65]

/-- The sms message multipart header (`SmsMultipartHeader` in `sms.rs`). -/
structure SmsMultipartHeader : Type where
  message_reference : Nat
  total : Nat
  index : Nat
deriving DecidableEq

/-- `impl TryFrom<Vec<u8>> for SmsMultipartHeader` (`sms.rs` lines
395-408): length must be exactly 3, then bytes map positionally, with no
cross-field validation. -/
def SmsMultipartHeader.tryFromBytes (data : List Nat) :
    Except String SmsMultipartHeader :=
  if h : data.length = 3 then
    .ok { message_reference := data[0], total := data[1], index := data[2] }
  else
    .error "Invalid user data length!"

/-- Event kinds (`EventKind` in `events.rs`). -/
inductive EventKind : Type where
  | IncomingMessage
  | OutgoingMessage
  | DeliveryReport
  | ModemStatusUpdate
  | GNSSPositionReport
  | WebsocketConnectionUpdate
deriving DecidableEq, Fintype

/-- `EventKind::to_bit` (`events.rs`). -/
def EventKind.to_bit : EventKind → Nat
  | .IncomingMessage => 1 <<< 0
  | .OutgoingMessage => 1 <<< 1
  | .DeliveryReport => 1 <<< 2
  | .ModemStatusUpdate => 1 <<< 3
  | .GNSSPositionReport => 1 <<< 4
  | .WebsocketConnectionUpdate => 1 <<< 5

/-- `EventKind::all_bits` (`events.rs` lines 53-55). -/
def EventKind.all_bits : Nat :=
  (1 <<< 0) ||| (1 <<< 1) ||| (1 <<< 2) ||| (1 <<< 3) ||| (1 <<< 4)

/-- `EventKind::events_to_mask` (`events.rs` lines 60-62): fold by
bitwise OR of `to_bit` over the event list. -/
def EventKind.events_to_mask (events : List EventKind) : Nat :=
  events.foldl (fun acc event => acc ||| event.to_bit) 0

/-- `impl TryFrom<&str> for EventKind` (`events.rs` lines 78-94):
exact-match token table, error message naming the offending token. -/
def EventKind.tryFromStr (value : String) : Except String EventKind :=
  if value = "incoming" then .ok .IncomingMessage
  else if value = "outgoing" then .ok .OutgoingMessage
  else if value = "delivery" then .ok .DeliveryReport
  else if value = "modem_status_update" then .ok .ModemStatusUpdate
  else if value = "websocket_connection_upgrade" then .ok .WebsocketConnectionUpdate
  else if value = "gnss_position_report" then .ok .GNSSPositionReport
  else .error ("Unknown event type " ++ value)

/-- The token table accepted by `TryFrom<&str> for EventKind`. -/
def eventKindTokenTable : List String :=
  ["incoming", "outgoing", "delivery", "modem_status_update",
   "websocket_connection_upgrade", "gnss_position_report"]

/-- The per-kind token accepted by `TryFrom<&str> for EventKind`
(the reverse reading of its match arms, `events.rs` lines 84-93). -/
def EventKind.parserToken : EventKind → String
  | .IncomingMessage => "incoming"
  | .OutgoingMessage => "outgoing"
  | .DeliveryReport => "delivery"
  | .ModemStatusUpdate => "modem_status_update"
  | .GNSSPositionReport => "gnss_position_report"
  | .WebsocketConnectionUpdate => "websocket_connection_upgrade"

/-- The wire serialization tag of each kind, from the
`#[serde(rename = ...)]` attributes on `EventKind` (`events.rs` lines
9-30). -/
def EventKind.serdeRename : EventKind → String
  | .IncomingMessage => "incoming"
  | .OutgoingMessage => "outgoing"
  | .DeliveryReport => "delivery"
  | .ModemStatusUpdate => "modem_status_update"
  | .GNSSPositionReport => "gnss_position_report"
  | .WebsocketConnectionUpdate => "websocket_connection_update"

/-- Modelled from the spec: the coarse classifier
`SmsDeliveryReportStatusCategory` of spec section 4.2 is not among the
source files of this repository (no declaration, test or caller of it
appears under `src/`); its four variants are taken from the spec's
words. -/
inductive SmsDeliveryReportStatusCategory : Type where
  | Received
  | Sent
  | Retrying
  | Failed
deriving DecidableEq

/-- Modelled from the spec: `SmsDeliveryReportStatusCategory::from(byte)`
is described in spec section 4.2 as a direct 4-way range split on the raw
byte (0x00 -> Received; 0x01-0x1F -> Sent; 0x20-0x3F -> Retrying; 0x40
and above -> Failed); the defining code is missing from `src/`. -/
def SmsDeliveryReportStatusCategory.fromByte (value : Nat) :
    SmsDeliveryReportStatusCategory :=
  if value = 0x00 then .Received
  else if value ≤ 0x1F then .Sent
  else if value ≤ 0x3F then .Retrying
  else .Failed

/-- C2: each adjacent boundary pair of bytes (0x1F/0x20, 0x3F/0x40,
0x5F/0x60, 0x7F/0x80) classifies into two different status groups. -/
theorem c2_boundary_pairs_differ :
    groupOfByte 0x1F ≠ groupOfByte 0x20 ∧
    groupOfByte 0x3F ≠ groupOfByte 0x40 ∧
    groupOfByte 0x5F ≠ groupOfByte 0x60 ∧
    groupOfByte 0x7F ≠ groupOfByte 0x80 := by
  decide

/-- C6: `all_bits` equals the OR of `to_bit` over the five
server-emittable kinds, and ANDed with the websocket-connection-update
bit it is zero. -/
theorem c6_all_bits_mask :
    EventKind.all_bits =
      (EventKind.to_bit .IncomingMessage ||| EventKind.to_bit .OutgoingMessage |||
       EventKind.to_bit .DeliveryReport ||| EventKind.to_bit .ModemStatusUpdate |||
       EventKind.to_bit .GNSSPositionReport) ∧
    EventKind.all_bits &&& EventKind.to_bit .WebsocketConnectionUpdate = 0 := by
  decide

/-- Unfolding lemma: `events_to_mask` against an arbitrary accumulator. -/
lemma events_to_mask_foldl_acc (l : List EventKind) (acc : Nat) :
    l.foldl (fun a e => a ||| e.to_bit) acc =
      acc ||| l.foldl (fun a e => a ||| e.to_bit) 0 := by
  induction l generalizing acc with
  | nil => simp
  | cons e l ih =>
    simp only [List.foldl_cons]
    rw [ih (acc ||| e.to_bit), ih (0 ||| e.to_bit), Nat.zero_or, Nat.or_assoc]

/-- `events_to_mask` on a cons is the head's bit ORed with the tail's mask. -/
lemma events_to_mask_cons (e : EventKind) (l : List EventKind) :
    EventKind.events_to_mask (e :: l) = e.to_bit ||| EventKind.events_to_mask l := by
  unfold EventKind.events_to_mask
  simp only [List.foldl_cons, Nat.zero_or]
  exact events_to_mask_foldl_acc l e.to_bit

/-- Bit `i` of the event mask is set exactly when some listed kind sets it. -/
lemma testBit_events_to_mask (l : List EventKind) (i : Nat) :
    (EventKind.events_to_mask l).testBit i = l.any (fun e => e.to_bit.testBit i) := by
  induction l with
  | nil => simp [EventKind.events_to_mask]
  | cons e l ih => rw [events_to_mask_cons, Nat.testBit_or, ih, List.any_cons]

/-- C7: `events_to_mask` is a bitwise-OR fold, so duplicates are
idempotent (`[A, A, B]` and `[A, B]` give equal masks) and the mask
depends only on which kinds are present in the input list. -/
theorem c7_mask_set_dependent :
    (∀ A B : EventKind,
      EventKind.events_to_mask [A, A, B] = EventKind.events_to_mask [A, B]) ∧
    (∀ l1 l2 : List EventKind, (∀ k : EventKind, k ∈ l1 ↔ k ∈ l2) →
      EventKind.events_to_mask l1 = EventKind.events_to_mask l2) := by
  constructor
  · decide
  · intro l1 l2 h
    apply Nat.eq_of_testBit_eq
    intro i
    rw [testBit_events_to_mask, testBit_events_to_mask]
    cases hb1 : l1.any (fun e => e.to_bit.testBit i) <;>
      cases hb2 : l2.any (fun e => e.to_bit.testBit i) <;> try rfl
    · rw [List.any_eq_false] at hb1
      rw [List.any_eq_true] at hb2
      obtain ⟨x, hx, hpx⟩ := hb2
      exact absurd hpx (hb1 x ((h x).mpr hx))
    · rw [List.any_eq_true] at hb1
      rw [List.any_eq_false] at hb2
      obtain ⟨x, hx, hpx⟩ := hb1
      exact absurd hpx (hb2 x ((h x).mp hx))

/-- Witness for C7 at concrete inputs: the two lists
`[IncomingMessage, IncomingMessage, DeliveryReport]` and
`[IncomingMessage, DeliveryReport]` hold the same kinds, hence equal
masks. -/
theorem c7_mask_set_dependent_witness :
    EventKind.events_to_mask
        [.IncomingMessage, .IncomingMessage, .DeliveryReport] =
      EventKind.events_to_mask [.IncomingMessage, .DeliveryReport] :=
  c7_mask_set_dependent.2
    [.IncomingMessage, .IncomingMessage, .DeliveryReport]
    [.IncomingMessage, .DeliveryReport] (by decide)

/-- C1: for every byte 0-255 the byte-to-variant conversion and the
group reduction are total: the composite `groupOfByte` always lands in
one of the four groups. Purity and determinism hold definitionally,
`groupOfByte` being a Lean function of the byte alone. -/
theorem c1_classification_total :
    ∀ b : Nat, b < 256 →
      groupOfByte b = .Sent ∨ groupOfByte b = .Received ∨
      groupOfByte b = .TemporaryFailure ∨ groupOfByte b = .PermanentFailure := by
  decide

/-- Witness for C1 at byte 0xAB. -/
theorem c1_classification_total_witness :
    groupOfByte 0xAB = .Sent ∨ groupOfByte 0xAB = .Received ∨
    groupOfByte 0xAB = .TemporaryFailure ∨
    groupOfByte 0xAB = .PermanentFailure :=
  c1_classification_total 0xAB (by decide)

/-- C4: for every byte at most one of the four predicates holds of the
classified status; for every named (non-reserved) code exactly one
holds; and whenever a predicate holds, `to_status_group` returns the
matching group. -/
theorem c4_predicates_partition :
    ∀ b : Nat, b < 256 →
      ((if (SmsDeliveryReportStatus.fromByte b).is_successful then 1 else 0) +
       (if (SmsDeliveryReportStatus.fromByte b).is_temporary_retrying then 1 else 0) +
       (if (SmsDeliveryReportStatus.fromByte b).is_permanent_error then 1 else 0) +
       (if (SmsDeliveryReportStatus.fromByte b).is_temporary_no_retry then 1 else 0)
         ≤ 1) ∧
      (b ∈ namedStatusBytes →
        (if (SmsDeliveryReportStatus.fromByte b).is_successful then 1 else 0) +
        (if (SmsDeliveryReportStatus.fromByte b).is_temporary_retrying then 1 else 0) +
        (if (SmsDeliveryReportStatus.fromByte b).is_permanent_error then 1 else 0) +
        (if (SmsDeliveryReportStatus.fromByte b).is_temporary_no_retry then 1 else 0)
          = 1) ∧
      ((SmsDeliveryReportStatus.fromByte b).is_successful = true →
        groupOfByte b = .Received) ∧
      ((SmsDeliveryReportStatus.fromByte b).is_temporary_retrying = true →
        groupOfByte b = .Sent) ∧
      ((SmsDeliveryReportStatus.fromByte b).is_permanent_error = true →
        groupOfByte b = .PermanentFailure) ∧
      ((SmsDeliveryReportStatus.fromByte b).is_temporary_no_retry = true →
        groupOfByte b = .TemporaryFailure) := by
  decide

/-- Witness for C4 at the named code 0x24 (temporary-retrying). -/
theorem c4_predicates_partition_witness :
    (0x24 : Nat) ∈ namedStatusBytes ∧
    ((SmsDeliveryReportStatus.fromByte 0x24).is_temporary_retrying = true →
      groupOfByte 0x24 = .Sent) :=
  ⟨by decide, (c4_predicates_partition 0x24 (by decide)).2.2.2.1⟩

/-- C10: every byte in the reserved range 0x03-0x1F classifies to
`Unknown(byte)`, all four predicates are false on it, and the group is
`PermanentFailure` via the final default branch (so neither `Received`
nor `Sent`). -/
theorem c10_reserved_gap_defaults_permanent :
    ∀ b : Nat, b < 256 → 0x03 ≤ b → b ≤ 0x1F →
      SmsDeliveryReportStatus.fromByte b = .Unknown b ∧
      (SmsDeliveryReportStatus.fromByte b).is_successful = false ∧
      (SmsDeliveryReportStatus.fromByte b).is_temporary_retrying = false ∧
      (SmsDeliveryReportStatus.fromByte b).is_permanent_error = false ∧
      (SmsDeliveryReportStatus.fromByte b).is_temporary_no_retry = false ∧
      groupOfByte b = .PermanentFailure := by
  decide

/-- Witness for C10 at byte 0x10. -/
theorem c10_reserved_gap_defaults_permanent_witness :
    SmsDeliveryReportStatus.fromByte 0x10 = .Unknown 0x10 ∧
    (SmsDeliveryReportStatus.fromByte 0x10).is_successful = false ∧
    (SmsDeliveryReportStatus.fromByte 0x10).is_temporary_retrying = false ∧
    (SmsDeliveryReportStatus.fromByte 0x10).is_permanent_error = false ∧
    (SmsDeliveryReportStatus.fromByte 0x10).is_temporary_no_retry = false ∧
    groupOfByte 0x10 = .PermanentFailure :=
  c10_reserved_gap_defaults_permanent 0x10 (by decide) (by decide) (by decide)

/-- C5: multipart header decoding fails with the invalid-length error
exactly when the input length is not 3; every 3-byte input succeeds with
positional field assignment and no cross-field validation; the concrete
scenarios `[7, 3, 1]`, `[1, 2]` and `[1, 2, 3, 4]` behave as stated. -/
theorem c5_multipart_decode :
    (∀ data : List Nat,
      SmsMultipartHeader.tryFromBytes data = .error "Invalid user data length!" ↔
        data.length ≠ 3) ∧
    (∀ a b c : Nat,
      SmsMultipartHeader.tryFromBytes [a, b, c] =
        .ok { message_reference := a, total := b, index := c }) ∧
    SmsMultipartHeader.tryFromBytes [7, 3, 1] =
      .ok { message_reference := 7, total := 3, index := 1 } ∧
    SmsMultipartHeader.tryFromBytes [1, 2] = .error "Invalid user data length!" ∧
    SmsMultipartHeader.tryFromBytes [1, 2, 3, 4] =
      .error "Invalid user data length!" := by
  refine ⟨?_, ?_, rfl, rfl, rfl⟩
  · intro data
    unfold SmsMultipartHeader.tryFromBytes
    split <;> simp_all
  · intro a b c
    rfl

/-- C8: string-to-event-kind parsing is exact match against the fixed
token table: `"delivery"` parses to `DeliveryReport`, and any string
outside the table fails with an error message that carries the offending
token (in particular `"bogus"`). -/
theorem c8_token_parsing :
    EventKind.tryFromStr "delivery" = .ok .DeliveryReport ∧
    (∀ s : String, s ∉ eventKindTokenTable →
      EventKind.tryFromStr s = .error ("Unknown event type " ++ s)) ∧
    EventKind.tryFromStr "bogus" = .error ("Unknown event type " ++ "bogus") ∧
    "Unknown event type " ++ "bogus" = "Unknown event type bogus" := by
  refine ⟨rfl, ?_, rfl, rfl⟩
  intro s hs
  simp only [eventKindTokenTable, List.mem_cons, List.not_mem_nil, or_false,
    not_or] at hs
  obtain ⟨h1, h2, h3, h4, h5, h6⟩ := hs
  simp [EventKind.tryFromStr, h1, h2, h3, h4, h5, h6]

/-- Witness for C8 at the out-of-table token `"bogus"`. -/
theorem c8_token_parsing_witness :
    EventKind.tryFromStr "bogus" = .error ("Unknown event type " ++ "bogus") :=
  c8_token_parsing.2.1 "bogus" (by decide)

/-- C9: the parser's accepted token and the serde wire tag differ for
the websocket-connection-update kind and agree for the other five kinds;
the per-kind parser tokens are indeed the ones the parser accepts. -/
theorem c9_token_tag_mismatch :
    EventKind.parserToken .WebsocketConnectionUpdate ≠
      EventKind.serdeRename .WebsocketConnectionUpdate ∧
    EventKind.parserToken .IncomingMessage = EventKind.serdeRename .IncomingMessage ∧
    EventKind.parserToken .OutgoingMessage = EventKind.serdeRename .OutgoingMessage ∧
    EventKind.parserToken .DeliveryReport = EventKind.serdeRename .DeliveryReport ∧
    EventKind.parserToken .ModemStatusUpdate =
      EventKind.serdeRename .ModemStatusUpdate ∧
    EventKind.parserToken .GNSSPositionReport =
      EventKind.serdeRename .GNSSPositionReport ∧
    (∀ k : EventKind, EventKind.tryFromStr (EventKind.parserToken k) = .ok k) := by
  refine ⟨by decide, rfl, rfl, rfl, rfl, rfl, ?_⟩
  intro k
  cases k <;> rfl

/-- C3: the spec-modelled coarse classifier maps 0x00 to Received,
0x01-0x1F to Sent, 0x20-0x3F to Retrying, and 0x40 and above to Failed,
for every byte 0-255. -/
theorem c3_category_range_split :
    ∀ b : Nat, b < 256 →
      (b = 0x00 → SmsDeliveryReportStatusCategory.fromByte b = .Received) ∧
      (0x01 ≤ b → b ≤ 0x1F → SmsDeliveryReportStatusCategory.fromByte b = .Sent) ∧
      (0x20 ≤ b → b ≤ 0x3F →
        SmsDeliveryReportStatusCategory.fromByte b = .Retrying) ∧
      (0x40 ≤ b → SmsDeliveryReportStatusCategory.fromByte b = .Failed) := by
  decide

/-- Witness for C3 at byte 0x50 (maps to Failed). -/
theorem c3_category_range_split_witness :
    SmsDeliveryReportStatusCategory.fromByte 0x50 = .Failed :=
  (c3_category_range_split 0x50 (by decide)).2.2.2 (by decide)
